import Mathlib

set_option maxHeartbeats 1600000

/-!
Shallow embedding of the email-service core of the swarm-blackjack
repository: the Auth/OPA gate (`auth.py`), the message-type registry and
renderers (`templates.py`), the encryption layer (`encryption.py`), the
transport envelope (`transport.py`) and the nine-step processing pipeline
(`pipeline.py`).

Modelling conventions:
* Python strings are `String`; a value that may be `None` is an `Option`.
* JSON payloads are association lists `List (String × Option String)`;
  a `none` value models JSON `null`, a missing key models `KeyError`.
* Python truthiness of optional strings (`if not x:`) is `py_falsy`.
* Functions that can raise an uncaught exception return `Option`.
* Network effects (the identity-directory HTTP call, the SMTP handoff,
  the minted uuid) are supplied through an explicit `Env` record; the
  `float` builtin used by two renderers is supplied as a function
  returning sign and repr, `none` modelling `ValueError`/`TypeError`.
-/

/-- Association-list model of a JSON object payload: field name to value,
`none` standing for JSON null. -/
abbrev Payload := List (String × Option String)

/-- Python `str(x)` / f-string interpolation of a possibly-None string. -/
def pyStr (v : Option String) : String :=
  match v with
  | some s => s
  | none => "None"

/-- Python truthiness test `not x` for an optional string: `None` and the
empty string are falsy. -/
def py_falsy (v : Option String) : Bool :=
  match v with
  | none => true
  | some s => s = ""

/-- Python `x or default` for an optional string `x`. -/
def py_or_str (v : Option String) (default : String) : String :=
  match v with
  | none => default
  | some s => if s = "" then default else s

/-- Helper for Python substring membership: needle occurs in the haystack. -/
def char_sub (needle : List Char) : List Char → Bool
  | [] => needle.isEmpty
  | c :: t => needle.isPrefixOf (c :: t) || char_sub needle t

/-- Python `needle in hay` on strings. -/
def str_in (needle hay : String) : Bool :=
  char_sub needle.data hay.data

/-- First character of a string, used to separate unequal string families. -/
def first_char (s : String) : Option Char :=
  s.data.head?

namespace Auth

/-- `auth.AuthRequest` dataclass. -/
structure AuthRequest where
  calling_service : String
  request_id : String
  tier : String
  message_type : String
  recipient_user_id : Option String
deriving Repr, DecidableEq

/-- `auth.AuthResult` dataclass. -/
structure AuthResult where
  authorized : Bool
  enforced_tier : Option String
  reason : Option String := none
  security_alert : Bool := false
  alert_detail : Option String := none
deriving Repr, DecidableEq

/-- `auth.TIER_LEVELS` — tiers in ascending privilege order. -/
def TIER_LEVELS : List (String × Nat) :=
  [("system", 1), ("social", 2), ("personal", 3), ("confidential", 4), ("restricted", 5)]

/-- `auth.CALLER_TIER_POLICY` — which services may send which tiers. -/
def CALLER_TIER_POLICY : List (String × List String) :=
  [("auth-service", ["system"]),
   ("game-state", ["system", "social", "personal"]),
   ("chat-service", ["social"]),
   ("bank-service", ["restricted"]),
   ("test", ["system", "social", "personal", "confidential", "restricted"])]

/-- `auth.HONEYPOT_MESSAGE_TYPES` — message types that trigger security
alerts regardless of auth outcome. -/
def HONEYPOT_MESSAGE_TYPES : List String :=
  ["password_reset"]

/-- `auth._call_opa` — stub OPA evaluation applying the documented
caller-tier policy. -/
def _call_opa (auth_req : AuthRequest) : AuthResult :=
  let allowed_tiers := (CALLER_TIER_POLICY.lookup auth_req.calling_service).getD []
  if ¬ allowed_tiers.contains auth_req.tier then
    { authorized := false
      enforced_tier := none
      reason := some ("Service \x27" ++ auth_req.calling_service ++
        "\x27 not permitted to send \x27" ++ auth_req.tier ++ "\x27 tier") }
  else
    { authorized := true, enforced_tier := some auth_req.tier }

/-- `auth.check` — public interface: OPA evaluation plus the always-on
honeypot override. -/
def check (auth_req : AuthRequest) : AuthResult :=
  let result := _call_opa auth_req
  if HONEYPOT_MESSAGE_TYPES.contains auth_req.message_type then
    { authorized := false
      enforced_tier := none
      reason := some "Message type not available"
      security_alert := true
      alert_detail := some ("Honeypot triggered by " ++ auth_req.calling_service) }
  else
    result

end Auth

namespace Templates

/-- `templates.MessageTypeSpec` dataclass. -/
structure MessageTypeSpec where
  minimum_tier : String
  required_fields : List String
  description : String
deriving Repr, DecidableEq

/-- `templates.MESSAGE_TYPES` — the message-type registry. -/
def MESSAGE_TYPES : List (String × MessageTypeSpec) :=
  [("verify_email",
    { minimum_tier := "system"
      required_fields := ["verification_url", "expires_in"]
      description := "New account email verification link" }),
   ("magic_link",
    { minimum_tier := "system"
      required_fields := ["magic_url", "expires_in"]
      description := "One-time account setup link" }),
   ("password_reset",
    { minimum_tier := "system"
      required_fields := ["reset_url", "expires_in"]
      description := "[HONEYPOT] Password reset — not a valid operation in this system" }),
   ("game_invite",
    { minimum_tier := "social"
      required_fields := ["inviter_name", "table_name", "join_url"]
      description := "Player-to-player game invitation" }),
   ("game_result_notify",
    { minimum_tier := "social"
      required_fields := ["result", "net_change"]
      description := "Notification of game result to interested party" }),
   ("session_summary",
    { minimum_tier := "personal"
      required_fields := ["hands_played", "net_result", "session_start", "session_end"]
      description := "Player\x27s own session win/loss summary" }),
   ("account_flag_notice",
    { minimum_tier := "confidential"
      required_fields := ["reason", "action_taken"]
      description := "Account moderation or flag notification" }),
   ("transaction_receipt",
    { minimum_tier := "restricted"
      required_fields := ["transaction_id", "amount", "type", "timestamp", "balance_after"]
      description := "Bank transaction receipt — always encrypted, always to registered address" })]

/-- `templates.TIER_LEVELS`. -/
def TIER_LEVELS : List (String × Nat) :=
  [("system", 1), ("social", 2), ("personal", 3), ("confidential", 4), ("restricted", 5)]

/-- Python `TIER_LEVELS.get(t, 0)`. -/
def tier_level (t : String) : Nat :=
  (TIER_LEVELS.lookup t).getD 0

/-- The per-field condition of `templates.validate`:
`field not in payload or payload[field] is None`. -/
def field_missing (p : Payload) (f : String) : Bool :=
  match p.lookup f with
  | some (some _) => false
  | _ => true

/-- `templates.validate` — returns the list of validation errors
(empty list means valid). -/
def validate (message_type : String) (tier : String) (p : Payload) : List String :=
  match MESSAGE_TYPES.lookup message_type with
  | none => ["Unknown message type: " ++ message_type]
  | some spec =>
    (if tier_level tier < tier_level spec.minimum_tier then
      ["Message type \x27" ++ message_type ++ "\x27 requires minimum tier \x27" ++
        spec.minimum_tier ++ "\x27, got \x27" ++ tier ++ "\x27"]
    else [])
    ++ spec.required_fields.filterMap (fun f =>
        if field_missing p f then
          some ("Missing required payload field: \x27" ++ f ++ "\x27")
        else none)

/-- Python `str.upper()` (ASCII model). -/
def pyUpper (s : String) : String :=
  s.map Char.toUpper

/-- The outcome of the `float` builtin on a string: `none` models a raised
`ValueError`; `some (nonneg, repr)` gives the sign test `float(s) >= 0`
and the `str()` rendering of the parsed float. -/
abbrev FloatFn := String → Option (Bool × String)

/-- `templates._html_wrap` — the HTML base template. -/
def _html_wrap (title : String) (body_inner : String) : String :=
  "<!DOCTYPE html>\n"
  ++ "<html>\n"
  ++ "<head>\n"
  ++ "  <meta charset=\"utf-8\">\n"
  ++ "  <meta name=\"viewport\" content=\"width=device-width, initial-scale=1\">\n"
  ++ "  <title>" ++ title ++ "</title>\n"
  ++ "</head>\n"
  ++ "<body style=\"margin:0;padding:0;background:#0d1117;font-family:\x27Segoe UI\x27,system-ui,sans-serif;\">\n"
  ++ "  <table width=\"100%\" cellpadding=\"0\" cellspacing=\"0\" style=\"background:#0d1117;padding:40px 0;\">\n"
  ++ "    <tr><td align=\"center\">\n"
  ++ "      <table width=\"480\" cellpadding=\"0\" cellspacing=\"0\"\n"
  ++ "             style=\"background:#161b22;border:1px solid #30363d;border-radius:12px;overflow:hidden;\">\n"
  ++ "        <!-- Header -->\n"
  ++ "        <tr>\n"
  ++ "          <td style=\"background:linear-gradient(135deg,#1a4731,#0d2818);\n"
  ++ "                     padding:28px 32px;text-align:center;border-bottom:1px solid #30363d;\">\n"
  ++ "            <div style=\"color:#58a6ff;font-size:22px;font-weight:700;\n"
  ++ "                        letter-spacing:3px;text-transform:uppercase;\">\n"
  ++ "              Swarm Blackjack\n"
  ++ "            </div>\n"
  ++ "            <div style=\"color:#8b949e;font-size:12px;margin-top:4px;letter-spacing:1px;\">\n"
  ++ "              Polyglot Microservices · Zero Trust · PoC\n"
  ++ "            </div>\n"
  ++ "          </td>\n"
  ++ "        </tr>\n"
  ++ "        <!-- Body -->\n"
  ++ "        <tr>\n"
  ++ "          <td style=\"padding:32px;\">\n"
  ++ "            " ++ body_inner ++ "\n"
  ++ "          </td>\n"
  ++ "        </tr>\n"
  ++ "        <!-- Footer -->\n"
  ++ "        <tr>\n"
  ++ "          <td style=\"padding:16px 32px 24px;border-top:1px solid #21262d;text-align:center;\">\n"
  ++ "            <div style=\"color:#4a5568;font-size:11px;\">\n"
  ++ "              This is an automated message from Swarm Blackjack.\n"
  ++ "              If you didn\x27t request this, you can safely ignore it.\n"
  ++ "            </div>\n"
  ++ "          </td>\n"
  ++ "        </tr>\n"
  ++ "      </table>\n"
  ++ "    </td></tr>\n"
  ++ "  </table>\n"
  ++ "</body>\n"
  ++ "</html>"

/-- `templates._render_verify_email`. -/
def _render_verify_email (p : Payload) : Option (String × String × Option String) :=
  match p.lookup "verification_url", p.lookup "expires_in" with
  | some url, some expires =>
    let text :=
      "Please verify your email address by clicking the link below.\n\n"
      ++ pyStr url ++ "\n\n"
      ++ "This link expires in " ++ pyStr expires ++ ".\n\n"
      ++ "Note: This is a one-time verification link. "
      ++ "Future logins use your registered email — no passwords."
    let html := _html_wrap "Verify your Swarm Blackjack account"
      ("\n        <h2 style=\"color:#e6edf3;margin:0 0 16px;font-size:20px;\">Verify your email</h2>\n"
      ++ "        <p style=\"color:#8b949e;margin:0 0 24px;line-height:1.6;\">\n"
      ++ "          Thanks for registering. Click the button below to verify your email address\n"
      ++ "          and activate your account.\n"
      ++ "        </p>\n"
      ++ "        <div style=\"text-align:center;margin:28px 0;\">\n"
      ++ "          <a href=\"" ++ pyStr url ++ "\"\n"
      ++ "             style=\"display:inline-block;padding:14px 32px;\n"
      ++ "                    background:#1f6feb;color:#ffffff;\n"
      ++ "                    text-decoration:none;border-radius:8px;\n"
      ++ "                    font-weight:700;font-size:15px;letter-spacing:0.5px;\">\n"
      ++ "            Verify Email Address\n"
      ++ "          </a>\n"
      ++ "        </div>\n"
      ++ "        <p style=\"color:#4a5568;font-size:12px;margin:16px 0 0;text-align:center;\">\n"
      ++ "          Link expires in " ++ pyStr expires ++ " · One-time use only\n"
      ++ "        </p>\n"
      ++ "        <p style=\"color:#4a5568;font-size:12px;margin:8px 0 0;text-align:center;\">\n"
      ++ "          Or copy this URL: <span style=\"color:#58a6ff;\">" ++ pyStr url ++ "</span>\n"
      ++ "        </p>\n    ")
    some ("Verify your Swarm Blackjack account", text, some html)
  | _, _ => none

/-- `templates._render_magic_link`. -/
def _render_magic_link (p : Payload) : Option (String × String × Option String) :=
  match p.lookup "magic_url", p.lookup "expires_in" with
  | some url, some expires =>
    let text :=
      "Click the link below to complete your account setup.\n\n"
      ++ pyStr url ++ "\n\n"
      ++ "This link expires in " ++ pyStr expires ++ " and can only be used once."
    let html := _html_wrap "Your Swarm Blackjack setup link"
      ("\n        <h2 style=\"color:#e6edf3;margin:0 0 16px;font-size:20px;\">Your setup link</h2>\n"
      ++ "        <p style=\"color:#8b949e;margin:0 0 24px;line-height:1.6;\">\n"
      ++ "          Click the button below to complete your account setup.\n"
      ++ "        </p>\n"
      ++ "        <div style=\"text-align:center;margin:28px 0;\">\n"
      ++ "          <a href=\"" ++ pyStr url ++ "\"\n"
      ++ "             style=\"display:inline-block;padding:14px 32px;\n"
      ++ "                    background:#1f6feb;color:#ffffff;\n"
      ++ "                    text-decoration:none;border-radius:8px;\n"
      ++ "                    font-weight:700;font-size:15px;\">\n"
      ++ "            Complete Setup\n"
      ++ "          </a>\n"
      ++ "        </div>\n"
      ++ "        <p style=\"color:#4a5568;font-size:12px;margin:16px 0 0;text-align:center;\">\n"
      ++ "          Expires in " ++ pyStr expires ++ " · One-time use only\n"
      ++ "        </p>\n    ")
    some ("Your Swarm Blackjack setup link", text, some html)
  | _, _ => none

/-- `templates._render_password_reset` — total: uses `p.get` with default. -/
def _render_password_reset (p : Payload) : Option (String × String × Option String) :=
  let reset_url :=
    match p.lookup "reset_url" with
    | none => ""
    | some v => pyStr v
  some ("Password reset",
    "[STUB — this message type is a honeypot and should never render]\n\n" ++ reset_url,
    none)

/-- `templates._render_game_invite`. -/
def _render_game_invite (p : Payload) : Option (String × String × Option String) :=
  match p.lookup "inviter_name", p.lookup "table_name", p.lookup "join_url" with
  | some inviter, some table, some join => some
    (pyStr inviter ++ " invited you to a game",
     pyStr inviter ++ " has invited you to join their table: " ++ pyStr table ++ "\n\n"
      ++ "Join here: " ++ pyStr join,
     none)
  | _, _, _ => none

/-- `templates._render_game_result_notify` — raises on a missing or null
`result` (`.upper()` on None) and on an unparsable `net_change` (`float`). -/
def _render_game_result_notify (pyfloat : FloatFn) (p : Payload) :
    Option (String × String × Option String) :=
  match p.lookup "result", p.lookup "net_change" with
  | some (some r), some (some change) =>
    match pyfloat change with
    | some (nonneg, _) =>
      let result := pyUpper r
      let sign := if nonneg then "+" else ""
      some ("Game result: " ++ result,
        "Your recent game has concluded.\n\nResult: " ++ result ++ "\nNet change: "
          ++ sign ++ change ++ "\n\n"
          ++ "Log in to view your full session history.",
        none)
    | none => none
  | _, _ => none

/-- `templates._render_session_summary` — raises on a missing field or an
unparsable `net_result`. -/
def _render_session_summary (pyfloat : FloatFn) (p : Payload) :
    Option (String × String × Option String) :=
  match p.lookup "net_result" with
  | some (some net_str) =>
    match pyfloat net_str with
    | some (nonneg, net_repr) =>
      match p.lookup "hands_played", p.lookup "session_start", p.lookup "session_end" with
      | some hands, some sstart, some send_ =>
        let sign := if nonneg then "+" else ""
        some ("Your session summary",
          "Session Summary\n---------------\n"
            ++ "Hands played : " ++ pyStr hands ++ "\n"
            ++ "Net result   : " ++ sign ++ net_repr ++ "\n"
            ++ "Started      : " ++ pyStr sstart ++ "\n"
            ++ "Ended        : " ++ pyStr send_ ++ "\n\n"
            ++ "This summary is for your records only.",
          none)
      | _, _, _ => none
    | none => none
  | _ => none

/-- `templates._render_account_flag_notice`. -/
def _render_account_flag_notice (p : Payload) : Option (String × String × Option String) :=
  match p.lookup "reason", p.lookup "action_taken" with
  | some reason, some action => some
    ("Important notice regarding your account",
     "An action has been taken on your Swarm Blackjack account.\n\n"
      ++ "Reason      : " ++ pyStr reason ++ "\n"
      ++ "Action taken: " ++ pyStr action ++ "\n\n"
      ++ "If you believe this is in error, please contact support.",
     none)
  | _, _ => none

/-- `templates._render_transaction_receipt` — raises on a missing field or
a null `type` (`.upper()` on None). -/
def _render_transaction_receipt (p : Payload) : Option (String × String × Option String) :=
  match p.lookup "type", p.lookup "transaction_id", p.lookup "amount",
        p.lookup "timestamp", p.lookup "balance_after" with
  | some (some ty), some txid, some amount, some ts, some bal => some
    ("Transaction receipt — " ++ pyUpper ty,
     "Transaction Receipt\n-------------------\n"
      ++ "Transaction ID : " ++ pyStr txid ++ "\n"
      ++ "Type           : " ++ ty ++ "\n"
      ++ "Amount         : " ++ pyStr amount ++ "\n"
      ++ "Timestamp      : " ++ pyStr ts ++ "\n"
      ++ "Balance after  : " ++ pyStr bal ++ "\n\n"
      ++ "If you did not authorize this transaction, contact support immediately.",
     none)
  | _, _, _, _, _ => none

/-- The `renderers` dictionary lookup-and-call of `templates.render`;
`none` models a raised exception (unknown type `KeyError`, missing
payload key, float parse failure). -/
def renderers (pyfloat : FloatFn) (message_type : String) (p : Payload) :
    Option (String × String × Option String) :=
  match message_type with
  | "verify_email" => _render_verify_email p
  | "magic_link" => _render_magic_link p
  | "password_reset" => _render_password_reset p
  | "game_invite" => _render_game_invite p
  | "game_result_notify" => _render_game_result_notify pyfloat p
  | "session_summary" => _render_session_summary pyfloat p
  | "account_flag_notice" => _render_account_flag_notice p
  | "transaction_receipt" => _render_transaction_receipt p
  | _ => none

/-- `templates.render` — returns `(subject, body_text, body_html?)`;
`none` models a raised exception escaping `render`. -/
def render (pyfloat : FloatFn) (message_type : String) (p : Payload) (encrypted : Bool) :
    Option (String × String × Option String) :=
  let enc_notice := if encrypted then "\n[This message is encrypted end-to-end]\n" else ""
  match renderers pyfloat message_type p with
  | none => none
  | some (subject, body_text, body_html) => some (subject, enc_notice ++ body_text, body_html)

end Templates

namespace Encryption

/-- `encryption.EncryptionResult` dataclass. -/
structure EncryptionResult where
  ciphertext : String
  encrypted : Bool
  key_id : Option String
deriving Repr, DecidableEq

/-- Outcome of one HTTP call of `resolve_recipient_address` to the
auth-service user registry: a JSON body whose `email` field may be absent,
a timeout of the 3-second deadline, or any other raised exception
(connection failure, HTTP error, bad JSON). -/
inductive DirCallResult where
  | ok (email : Option String)
  | timeout
  | failure
deriving Repr, DecidableEq

/-- One directory collaborator call, as a function of the queried user id. -/
abbrev DirCall := String → DirCallResult

/-- `encryption._fetch_public_key` — stub: always returns a key string. -/
def _fetch_public_key (user_id : String) : Option String :=
  some ("stub-public-key-for-" ++ user_id)

/-- `encryption._encrypt_with_public_key` — stub: returns the plaintext. -/
def _encrypt_with_public_key (plaintext : String) (_public_key : String)
    (_user_id : String) : String :=
  plaintext

/-- `encryption.encrypt` — fetches the key and encrypts. -/
def encrypt (body : String) (user_id : String) : EncryptionResult :=
  let public_key := _fetch_public_key user_id
  if py_falsy public_key then
    { ciphertext := body, encrypted := false, key_id := none }
  else
    { ciphertext := _encrypt_with_public_key body (pyStr public_key) user_id
      encrypted := true
      key_id := some ("key-" ++ user_id) }

/-- `encryption.resolve_recipient_address` — resolve a user id to the
registered email; every exception (including the timeout) is caught and
collapsed to `None`, as is an absent or empty `email` field. The `tier`
argument is only logged. -/
def resolve_recipient_address (call : DirCall) (user_id : String)
    (_tier : Option String) : Option String :=
  match call user_id with
  | .ok (some email) => if email = "" then none else some email
  | .ok none => none
  | .timeout => none
  | .failure => none

end Encryption

namespace Transport

/-- `transport.TransportMessage` dataclass — the normalized envelope. -/
structure TransportMessage where
  to_address : String
  subject : String
  body_text : String
  body_html : Option String
  message_id : String
  encrypted : Bool
  tier : Option String
deriving Repr, DecidableEq

/-- `transport.TransportResult` dataclass. -/
structure TransportResult where
  success : Bool
  error : Option String := none
deriving Repr, DecidableEq

/-- `transport.deliver` — hands the envelope to the SMTP collaborator,
whose outcome (any exception already folded to a failure result) is the
supplied function. -/
def deliver (smtp_send : TransportMessage → TransportResult)
    (msg : TransportMessage) : TransportResult :=
  smtp_send msg

end Transport

namespace Pipeline

open Encryption Transport

/-- `pipeline.REQUIRES_USER_ID` — tiers that require a `user_id` recipient. -/
def REQUIRES_USER_ID : List String := ["personal", "confidential", "restricted"]

/-- `pipeline.REQUIRES_ENCRYPTION` — tiers that require encryption. -/
def REQUIRES_ENCRYPTION : List String := ["confidential", "restricted"]

/-- `pipeline.ENCRYPTION_DEFAULT` — tiers where encryption is default but
waivable. -/
def ENCRYPTION_DEFAULT : List String := ["personal"]

/-- Python `x in S` for an optional string against a set of tier names
(`None` is in no tier set). -/
def opt_mem (v : Option String) (l : List String) : Bool :=
  match v with
  | some s => l.contains s
  | none => false

/-- `pipeline.SendRequest` dataclass. -/
structure SendRequest where
  calling_service : String
  request_id : String
  tier : String
  message_type : String
  recipient_type : String
  recipient_value : String
  payload : Payload
  encryption_waived : Bool := false
  waiver_token : Option String := none
deriving Repr, DecidableEq

/-- `pipeline.SendResult` dataclass. -/
structure SendResult where
  status : String
  message_id : Option String
  enforced_tier : Option String
  encrypted : Option Bool
  error_code : Option String := none
  error_message : Option String := none
deriving Repr, DecidableEq

/-- The effects one `process` run consumes: the minted uuid, the outcome
of each of the two possible identity-directory HTTP calls, the SMTP
collaborator outcome, and the `float` builtin used by two renderers. -/
structure Env where
  message_id : String
  dir_resolve : DirCall
  dir_registered : DirCall
  smtp_send : TransportMessage → TransportResult
  pyfloat : Templates.FloatFn

/-- `pipeline._reject`. -/
def _reject (code : String) (message : String)
    (enforced_tier : Option String := none) : SendResult :=
  { status := "rejected"
    message_id := none
    enforced_tier := enforced_tier
    encrypted := none
    error_code := some code
    error_message := some message }

/-- The `auth.AuthRequest` that `pipeline.process` builds at step 2. -/
def auth_request_of (req : SendRequest) : Auth.AuthRequest :=
  { calling_service := req.calling_service
    request_id := req.request_id
    tier := req.tier
    message_type := req.message_type
    recipient_user_id :=
      if req.recipient_type = "user_id" then some req.recipient_value else none }

/-- Step 6 of `pipeline.process`: the encryption decision, returning the
rejection result or the `should_encrypt` flag. -/
def decide_encryption (enforced_tier : Option String) (encryption_waived : Bool)
    (waiver_token : Option String) : Except SendResult Bool :=
  if opt_mem enforced_tier REQUIRES_ENCRYPTION then
    Except.ok true
  else if opt_mem enforced_tier ENCRYPTION_DEFAULT then
    if encryption_waived then
      if py_falsy waiver_token then
        Except.error (_reject "waiver_token_invalid"
          "encryption_waived=true requires a waiver_token" enforced_tier)
      else
        Except.ok false
    else
      Except.ok true
  else
    Except.ok false

/-- Steps 7–9 of `pipeline.process` (render, apply encryption, hand off
to transport), given the values flowing into step 7. The outer `none`
models an uncaught renderer exception escaping `process`. -/
def process_render_onward (env : Env) (req : SendRequest) (enforced_tier : Option String)
    (resolved_address : String) (recipient_user_id : Option String)
    (should_encrypt : Bool) : Option (SendResult × Option TransportMessage) :=
  -- Step 7: render template
  match Templates.render env.pyfloat req.message_type req.payload should_encrypt with
  | none => none
  | some (subject, body, body_html) =>
  -- Step 8: apply encryption
  let step8 : Except SendResult (String × Bool) :=
    if should_encrypt then
      match recipient_user_id with
      | none => Except.error (_reject "encryption_key_missing"
          "Cannot encrypt: no user_id to look up public key" enforced_tier)
      | some uid =>
        let enc_result := Encryption.encrypt body uid
        if enc_result.encrypted = false then
          Except.error (_reject "encryption_key_missing"
            ("No public key on record for user " ++ uid) enforced_tier)
        else
          Except.ok (enc_result.ciphertext, enc_result.encrypted)
    else
      Except.ok (body, false)
  match step8 with
  | Except.error r => some (r, none)
  | Except.ok (final_body, actually_encrypted) =>
  -- Step 9: hand off to transport
  let msg : TransportMessage :=
    { to_address := resolved_address
      subject := subject
      body_text := final_body
      body_html := if actually_encrypted then none else body_html
      message_id := env.message_id
      encrypted := actually_encrypted
      tier := enforced_tier }
  let transport_result := Transport.deliver env.smtp_send msg
  if transport_result.success = false then
    some ({ status := "error"
            message_id := some env.message_id
            enforced_tier := enforced_tier
            encrypted := some actually_encrypted
            error_code := some "smtp_unavailable"
            error_message := transport_result.error }, some msg)
  else
    some ({ status := "queued"
            message_id := some env.message_id
            enforced_tier := enforced_tier
            encrypted := some actually_encrypted
            error_code := none
            error_message := none }, some msg)

/-- Steps 5–6 of `pipeline.process` (payload validation and the
encryption decision), continuing with steps 7–9. -/
def process_validate_onward (env : Env) (req : SendRequest) (enforced_tier : Option String)
    (resolved_address : String) (recipient_user_id : Option String) :
    Option (SendResult × Option TransportMessage) :=
  -- Step 5: validate payload
  let errors := Templates.validate req.message_type (pyStr enforced_tier) req.payload
  if errors ≠ [] then
    some (_reject
      (if ¬ str_in "Unknown message type" (errors.headD "") then
        "payload_validation_failed" else "unknown_message_type")
      (String.intercalate "; " errors)
      enforced_tier, none)
  else
  -- Step 6: determine encryption
  match decide_encryption enforced_tier req.encryption_waived req.waiver_token with
  | Except.error r => some (r, none)
  | Except.ok should_encrypt =>
    process_render_onward env req enforced_tier resolved_address recipient_user_id
      should_encrypt

/-- Step 4 of `pipeline.process` (recipient resolution and the
restricted-tier registered-address check), continuing with steps 5–9. -/
def process_resolve_onward (env : Env) (req : SendRequest)
    (enforced_tier : Option String) : Option (SendResult × Option TransportMessage) :=
  -- Step 4: resolve recipient
  let step4 : Except SendResult (String × Option String) :=
    if req.recipient_type = "user_id" then
      match resolve_recipient_address env.dir_resolve req.recipient_value enforced_tier with
      | none => Except.error (_reject "recipient_not_found"
          ("No registered address for user " ++ req.recipient_value) enforced_tier)
      | some addr => Except.ok (addr, some req.recipient_value)
    else
      Except.ok (req.recipient_value, none)
  match step4 with
  | Except.error r => some (r, none)
  | Except.ok (resolved_address, recipient_user_id) =>
  -- Restricted tier: ignore provided recipient, use registered address only
  let restricted_step : Except SendResult String :=
    if enforced_tier = some "restricted" then
      match resolve_recipient_address env.dir_registered req.recipient_value
          (some "restricted") with
      | none => Except.error (_reject "recipient_not_found"
          ("No registered address on account for " ++ req.recipient_value) enforced_tier)
      | some registered_address =>
        if resolved_address ≠ registered_address then
          Except.error (_reject "restricted_address_mismatch"
            "Restricted tier: resolved address does not match account registered address"
            enforced_tier)
        else
          Except.ok registered_address
    else
      Except.ok resolved_address
  match restricted_step with
  | Except.error r => some (r, none)
  | Except.ok resolved_address =>
    process_validate_onward env req enforced_tier resolved_address recipient_user_id

/-- `pipeline.process` (steps 1–3, continuing with steps 4–9), also
exposing the `TransportMessage` handed to the delivery collaborator (if
the handoff was reached); the outer `none` models an uncaught exception
escaping `process` (only possible when a renderer raises). -/
def processAux (env : Env) (req : SendRequest) :
    Option (SendResult × Option TransportMessage) :=
  -- Step 1: validate request schema
  if req.calling_service = "" ∨ req.request_id = "" then
    some (_reject "invalid_schema" "caller.service and caller.request_id are required", none)
  else if (Auth.TIER_LEVELS.lookup req.tier).isNone then
    some (_reject "invalid_schema" ("Unknown tier: " ++ req.tier), none)
  else if req.recipient_type ≠ "email" ∧ req.recipient_type ≠ "user_id" then
    some (_reject "invalid_schema" "recipient.type must be \x27email\x27 or \x27user_id\x27", none)
  else if req.recipient_value = "" then
    some (_reject "invalid_schema" "recipient.value is required", none)
  else
  -- Step 2: Auth/OPA check
  let auth_result := Auth.check (auth_request_of req)
  if auth_result.authorized = false then
    some (_reject "auth_denied" (py_or_str auth_result.reason "Authorization denied"), none)
  else
  let enforced_tier := auth_result.enforced_tier
  -- Step 3: validate tier/recipient compatibility
  if opt_mem enforced_tier REQUIRES_USER_ID ∧ req.recipient_type ≠ "user_id" then
    some (_reject "invalid_recipient"
      (pyStr enforced_tier ++ " tier requires registered user_id recipient, not raw email")
      enforced_tier, none)
  else
    process_resolve_onward env req enforced_tier

/-- `pipeline.process` — the `SendResult` alone. -/
def process (env : Env) (req : SendRequest) : Option SendResult :=
  (processAux env req).map Prod.fst

end Pipeline

/-! Concrete collaborator instances used to exercise the pipeline. -/

/-- A concrete model of the `float` builtin: every string parses, is
nonnegative, and reprs as itself. -/
def flStub : Templates.FloatFn := fun s => some (true, s)

/-- A healthy environment: both directory calls resolve to the same
registered address, SMTP accepts, floats parse. -/
def envStub : Pipeline.Env :=
  { message_id := "mid-0001"
    dir_resolve := fun _ => .ok (some "alice@example.com")
    dir_registered := fun _ => .ok (some "alice@example.com")
    smtp_send := fun _ => { success := true }
    pyfloat := flStub }

/-- An environment whose identity-directory calls expire their timeout. -/
def envTimeout : Pipeline.Env :=
  { message_id := "mid-0002"
    dir_resolve := fun _ => .timeout
    dir_registered := fun _ => .timeout
    smtp_send := fun _ => { success := true }
    pyfloat := flStub }

/-- Honeypot-typed request from a caller the stub authority would have
authorized (`test` may send every tier). -/
def reqHoneypot : Pipeline.SendRequest :=
  { calling_service := "test"
    request_id := "r-hp"
    tier := "system"
    message_type := "password_reset"
    recipient_type := "email"
    recipient_value := "victim@example.com"
    payload := [("reset_url", some "https://x.example/r"), ("expires_in", some "1 hour")] }

/-- Restricted-tier request with a raw address literal that differs from
the registered address on record. -/
def reqRestrictedLiteral : Pipeline.SendRequest :=
  { calling_service := "bank-service"
    request_id := "r-c3"
    tier := "restricted"
    message_type := "transaction_receipt"
    recipient_type := "email"
    recipient_value := "mallory@evil.example"
    payload := [("transaction_id", some "t-1"), ("amount", some "10"),
      ("type", some "deposit"), ("timestamp", some "2026-01-01T00:00:00Z"),
      ("balance_after", some "100")] }

/-- Request that passes step-1 schema validation but is denied by the
stub authority (`chat-service` may only send `social`). -/
def reqAuthDenied : Pipeline.SendRequest :=
  { calling_service := "chat-service"
    request_id := "r-c5"
    tier := "personal"
    message_type := "game_invite"
    recipient_type := "email"
    recipient_value := "bob@example.com"
    payload := [("inviter_name", some "Ann"), ("table_name", some "T1"),
      ("join_url", some "https://x.example/j")] }

/-- Personal-tier request with an identity-reference recipient and no
waiver: encryption is applied. -/
def reqPersonalEncrypted : Pipeline.SendRequest :=
  { calling_service := "game-state"
    request_id := "r-c4"
    tier := "personal"
    message_type := "verify_email"
    recipient_type := "user_id"
    recipient_value := "user-7"
    payload := [("verification_url", some "https://x.example/v"),
      ("expires_in", some "24 hours")] }

/-- Personal-tier request for an identity-reference recipient, used with
`envTimeout` to exercise a directory-lookup timeout. -/
def reqLookup : Pipeline.SendRequest :=
  { calling_service := "game-state"
    request_id := "r-c8"
    tier := "personal"
    message_type := "session_summary"
    recipient_type := "user_id"
    recipient_value := "user-9"
    payload := [("hands_played", some "12"), ("net_result", some "34.5"),
      ("session_start", some "s"), ("session_end", some "e")] }

/-- Restricted-tier request with an identity-reference recipient. -/
def reqRestrictedUser : Pipeline.SendRequest :=
  { calling_service := "bank-service"
    request_id := "r-c10"
    tier := "restricted"
    message_type := "transaction_receipt"
    recipient_type := "user_id"
    recipient_value := "user-3"
    payload := [("transaction_id", some "t-2"), ("amount", some "5"),
      ("type", some "withdrawal"), ("timestamp", some "2026-01-02T00:00:00Z"),
      ("balance_after", some "95")] }


/-- Honeypot-typed authorization request from a caller whose tier the
stub policy allows. -/
def authReqHoneypot : Auth.AuthRequest :=
  { calling_service := "test"
    request_id := "r1"
    tier := "system"
    message_type := "password_reset"
    recipient_user_id := none }

/-- Ordinary authorization request denied by the stub policy
(`chat-service` may only send `social`). -/
def authReqDenied : Auth.AuthRequest :=
  { calling_service := "chat-service"
    request_id := "r2"
    tier := "system"
    message_type := "verify_email"
    recipient_user_id := none }

/-! Helper lemmas. -/

/-- Appending the empty string on the left is the identity. -/
theorem str_empty_append (s : String) : "" ++ s = s := by
  cases s
  rfl

/-- A stub-policy denial reason never coincides with the honeypot reason:
they start with different characters. -/
theorem service_reason_ne (x y : String) :
    ("Service \x27" ++ x ++ "\x27 not permitted to send \x27" ++ y ++ "\x27 tier")
      ≠ "Message type not available" := by
  obtain ⟨xd⟩ := x
  obtain ⟨yd⟩ := y
  intro h
  have h2 : (some 'S' : Option Char) = some 'M' := congrArg first_char h
  simp at h2

/-- The only rejection `decide_encryption` can produce is the
waiver-token rejection. -/
theorem decide_encryption_error_shape (t : Option String) (w : Bool)
    (tok : Option String) :
    ∀ r, Pipeline.decide_encryption t w tok = Except.error r →
      r = Pipeline._reject "waiver_token_invalid"
        "encryption_waived=true requires a waiver_token" t := by
  intro r h
  simp only [Pipeline.decide_encryption] at h
  repeat' split at h
  all_goals simp_all

/-- Shape of every outcome of steps 7–9: a rejection (with code
`encryption_key_missing`, no id, no encryption flag, no handoff) or a
handoff (with the minted id, status `error` or `queued`, the result's
encrypted flag equal to the envelope's, and no rich body when
encrypted). -/
theorem render_onward_shape (env : Pipeline.Env) (req : Pipeline.SendRequest)
    (t : Option String) (addr : String) (uid : Option String) (se : Bool) :
    ∀ res m, Pipeline.process_render_onward env req t addr uid se = some (res, m) →
      (res.status = "rejected" ∧ res.message_id = none ∧ res.encrypted = none ∧ m = none
        ∧ res.error_code = some "encryption_key_missing")
      ∨ ((res.status = "error" ∨ res.status = "queued")
          ∧ res.message_id = some env.message_id
          ∧ (res.error_code = some "smtp_unavailable" ∨ res.error_code = none)
          ∧ ∃ msg, m = some msg ∧ res.encrypted = some msg.encrypted
              ∧ (msg.encrypted = true → msg.body_html = none)) := by
  intro res m hpa
  simp only [Pipeline.process_render_onward] at hpa
  repeat' split at hpa
  · exact Option.noConfusion hpa
  · simp only [Option.some.injEq, Prod.mk.injEq] at hpa
    obtain ⟨rfl, rfl⟩ := hpa
    rename_i r heq
    left
    repeat' split at heq
    all_goals
      first
      | exact Except.noConfusion heq
      | (injection heq with heq2
         subst heq2
         simp [Pipeline._reject]
         done)
  all_goals
    (simp only [Option.some.injEq, Prod.mk.injEq] at hpa
     obtain ⟨rfl, rfl⟩ := hpa
     right
     refine ⟨by simp, rfl, by simp, _, rfl, rfl, ?_⟩
     intro henc
     simp_all)

/-- Shape of every outcome of steps 5–9; no rejection of these steps
carries the `restricted_address_mismatch` code. -/
theorem validate_onward_shape (env : Pipeline.Env) (req : Pipeline.SendRequest)
    (t : Option String) (addr : String) (uid : Option String) :
    ∀ res m, Pipeline.process_validate_onward env req t addr uid = some (res, m) →
      ((res.status = "rejected" ∧ res.message_id = none ∧ res.encrypted = none ∧ m = none
          ∧ res.error_code ≠ some "restricted_address_mismatch")
        ∨ ((res.status = "error" ∨ res.status = "queued")
            ∧ res.message_id = some env.message_id
            ∧ (res.error_code = some "smtp_unavailable" ∨ res.error_code = none)
            ∧ ∃ msg, m = some msg ∧ res.encrypted = some msg.encrypted
                ∧ (msg.encrypted = true → msg.body_html = none))) := by
  intro res m hpa
  simp only [Pipeline.process_validate_onward] at hpa
  split at hpa
  · simp only [Option.some.injEq, Prod.mk.injEq] at hpa
    obtain ⟨rfl, rfl⟩ := hpa
    left
    constructor
    · rfl
    refine ⟨rfl, rfl, rfl, ?_⟩
    simp only [Pipeline._reject, Option.some.injEq, ne_eq]
    split <;> decide
  · split at hpa
    · rename_i r hdec
      have hr := decide_encryption_error_shape _ _ _ r hdec
      simp only [Option.some.injEq, Prod.mk.injEq] at hpa
      obtain ⟨rfl, rfl⟩ := hpa
      subst hr
      left
      refine ⟨rfl, rfl, rfl, rfl, by simp [Pipeline._reject]⟩
    · rcases render_onward_shape env req t addr uid _ res m hpa with
        ⟨hst, hid, henc, hm, hcode⟩ | hok
      · left
        exact ⟨hst, hid, henc, hm, by simp [hcode]⟩
      · right
        exact hok

/-- Shape of every outcome of steps 4–9: rejection without id or
handoff, or success/transport-failure with the minted id and an
encryption-respecting envelope. -/
theorem resolve_onward_shape (env : Pipeline.Env) (req : Pipeline.SendRequest)
    (t : Option String) :
    ∀ res m, Pipeline.process_resolve_onward env req t = some (res, m) →
      ((res.status = "rejected" ∧ res.message_id = none ∧ res.encrypted = none ∧ m = none)
        ∨ ((res.status = "error" ∨ res.status = "queued")
            ∧ res.message_id = some env.message_id
            ∧ (res.error_code = some "smtp_unavailable" ∨ res.error_code = none)
            ∧ ∃ msg, m = some msg ∧ res.encrypted = some msg.encrypted
                ∧ (msg.encrypted = true → msg.body_html = none))) := by
  intro res m hpa
  simp only [Pipeline.process_resolve_onward] at hpa
  repeat' split at hpa
  all_goals
    first
    | (simp only [Option.some.injEq, Prod.mk.injEq] at hpa
       obtain ⟨rfl, rfl⟩ := hpa
       rename_i r heq
       left
       repeat' split at heq
       all_goals
         first
         | exact Except.noConfusion heq
         | (injection heq with heq2
            subst heq2
            simp [Pipeline._reject]
            done)
       done)
    | (exact (validate_onward_shape env req t _ _ res m hpa).elim
        (fun h => Or.inl ⟨h.1, h.2.1, h.2.2.1, h.2.2.2.1⟩)
        Or.inr)

/-- Shape of every outcome of the whole pipeline: a rejection carries no
message id, no encryption flag and no handoff; a queued or error result
carries the minted id and an envelope whose rich body is absent whenever
it was encrypted. -/
theorem processAux_shape (env : Pipeline.Env) (req : Pipeline.SendRequest) :
    ∀ res m, Pipeline.processAux env req = some (res, m) →
      ((res.status = "rejected" ∧ res.message_id = none ∧ res.encrypted = none ∧ m = none)
        ∨ ((res.status = "error" ∨ res.status = "queued")
            ∧ res.message_id = some env.message_id
            ∧ ∃ msg, m = some msg ∧ res.encrypted = some msg.encrypted
                ∧ (msg.encrypted = true → msg.body_html = none))) := by
  intro res m hpa
  simp only [Pipeline.processAux] at hpa
  repeat' split at hpa
  all_goals
    first
    | (simp only [Option.some.injEq, Prod.mk.injEq] at hpa
       obtain ⟨rfl, rfl⟩ := hpa
       left
       simp [Pipeline._reject]
       done)
    | (exact (resolve_onward_shape env req _ res m hpa).elim
        (fun h => Or.inl h)
        (fun h => Or.inr ⟨h.1, h.2.1, h.2.2.2⟩))

/-! Claim C2. -/

/-- C2 counterexample: a honeypot trip and an ordinary policy denial do
not produce the same rejection reason — the honeypot reason is the fixed
string `Message type not available`, while a policy denial names the
service and the tier, so a caller can tell them apart. -/
theorem honeypot_reason_differs_cex :
    (Auth.check authReqHoneypot).reason = some "Message type not available"
    ∧ (Auth.check authReqDenied).authorized = false
    ∧ (Auth.check authReqDenied).reason
      = some "Service \x27chat-service\x27 not permitted to send \x27system\x27 tier"
    ∧ ("Message type not available" : String)
      ≠ "Service \x27chat-service\x27 not permitted to send \x27system\x27 tier" :=
  ⟨rfl, rfl, rfl, by decide⟩

/-- C2 (amended): every honeypot-type request receives the same fixed
generic reason, `Message type not available`, which reveals neither the
honeypot nor the alert; but that reason differs from the reason of any
stub-policy denial, so the two rejection kinds are distinguishable by
their reasons. -/
theorem honeypot_reason_fixed_generic (req req2 : Auth.AuthRequest)
    (h1 : Auth.HONEYPOT_MESSAGE_TYPES.contains req.message_type = true)
    (h2 : Auth.HONEYPOT_MESSAGE_TYPES.contains req2.message_type = false)
    (h3 : (Auth.check req2).authorized = false) :
    (Auth.check req).reason = some "Message type not available"
    ∧ (Auth.check req).reason ≠ (Auth.check req2).reason := by
  have hr : (Auth.check req).reason = some "Message type not available" := by
    simp only [Auth.check, h1]
    rfl
  refine ⟨hr, ?_⟩
  rw [hr]
  have hcheck2 : Auth.check req2 = Auth._call_opa req2 := by
    simp only [Auth.check, h2]
    rfl
  rw [hcheck2] at h3 ⊢
  simp only [Auth._call_opa] at h3 ⊢
  by_cases hallow :
      ((Auth.CALLER_TIER_POLICY.lookup req2.calling_service).getD []).contains req2.tier = true
  · rw [if_neg (not_not_intro hallow)] at h3
    exact absurd h3 (by simp)
  · rw [if_pos hallow]
    intro hcontra
    injection hcontra with h4
    exact service_reason_ne req2.calling_service req2.tier h4.symm

/-- C2 witness: concrete honeypot request against a concrete denied
request. -/
theorem honeypot_reason_fixed_generic_witness :
    (Auth.check authReqHoneypot).reason = some "Message type not available"
    ∧ (Auth.check authReqHoneypot).reason ≠ (Auth.check authReqDenied).reason :=
  honeypot_reason_fixed_generic authReqHoneypot authReqDenied rfl rfl rfl

/-! Claim C6. -/

/-- C6: the encryption-decision table — confidential and restricted tiers
are always encrypted with any waiver ignored; the personal tier with a
requested waiver and no token is rejected with `waiver_token_invalid`,
with a non-empty token it is not encrypted, and without a waiver it is
encrypted; system and social tiers are never encrypted. -/
theorem encryption_decision_table (t : Option String) (w : Bool) (tok : Option String) :
    ((t = some "confidential" ∨ t = some "restricted") →
      Pipeline.decide_encryption t w tok = Except.ok true)
    ∧ (t = some "personal" → w = true → tok = none →
      Pipeline.decide_encryption t w tok = Except.error
        (Pipeline._reject "waiver_token_invalid"
          "encryption_waived=true requires a waiver_token" (some "personal")))
    ∧ (t = some "personal" → w = true → ∀ s, tok = some s → s ≠ "" →
      Pipeline.decide_encryption t w tok = Except.ok false)
    ∧ (t = some "personal" → w = false →
      Pipeline.decide_encryption t w tok = Except.ok true)
    ∧ ((t = some "system" ∨ t = some "social") →
      Pipeline.decide_encryption t w tok = Except.ok false) := by
  refine ⟨?_, ?_, ?_, ?_, ?_⟩
  · rintro (rfl | rfl) <;> rfl
  · rintro rfl rfl rfl
    rfl
  · rintro rfl rfl s rfl hs
    simp [Pipeline.decide_encryption, Pipeline.opt_mem, Pipeline.REQUIRES_ENCRYPTION,
      Pipeline.ENCRYPTION_DEFAULT, py_falsy, hs]
  · rintro rfl rfl
    rfl
  · rintro (rfl | rfl) <;> rfl

/-- C6 witness: the personal tier with a requested waiver and a missing
token is rejected. -/
theorem encryption_decision_table_witness :
    Pipeline.decide_encryption (some "personal") true none = Except.error
      (Pipeline._reject "waiver_token_invalid"
        "encryption_waived=true requires a waiver_token" (some "personal")) :=
  (encryption_decision_table (some "personal") true none).2.1 rfl rfl rfl

/-! Claim C8. -/

/-- C8: when the identity-directory lookup expires its timeout, the code
returns status `rejected` with `recipient_not_found` — not status
`error` as the specification requires for collaborator timeouts. -/
theorem directory_timeout_yields_rejected :
    Pipeline.process envTimeout reqLookup
      = some (Pipeline._reject "recipient_not_found"
          "No registered address for user user-9" (some "personal"))
    ∧ (Pipeline.process envTimeout reqLookup).map Pipeline.SendResult.status
      ≠ some "error" :=
  ⟨rfl, by decide⟩

/-! Claim C7. -/

/-- C7: `validate` returns the single unknown-type error and nothing else
when the type is unregistered; otherwise it collects together, without
short-circuiting, one ordering error exactly when the tier rank is below
the minimum-tier rank and one missing-field error per required field that
is absent or null — so the result is empty exactly when the type is
known, the rank suffices, and every required field is present and
non-null. -/
theorem validate_error_characterisation (mt tier : String) (p : Payload) :
    (Templates.MESSAGE_TYPES.lookup mt = none →
      Templates.validate mt tier p = ["Unknown message type: " ++ mt])
    ∧ (∀ spec, Templates.MESSAGE_TYPES.lookup mt = some spec →
        Templates.validate mt tier p =
          (if Templates.tier_level tier < Templates.tier_level spec.minimum_tier then
            ["Message type \x27" ++ mt ++ "\x27 requires minimum tier \x27" ++
              spec.minimum_tier ++ "\x27, got \x27" ++ tier ++ "\x27"]
          else [])
          ++ spec.required_fields.filterMap (fun f =>
              if Templates.field_missing p f then
                some ("Missing required payload field: \x27" ++ f ++ "\x27")
              else none))
    ∧ (Templates.validate mt tier p = [] ↔
        ∃ spec, Templates.MESSAGE_TYPES.lookup mt = some spec
          ∧ Templates.tier_level spec.minimum_tier ≤ Templates.tier_level tier
          ∧ ∀ f ∈ spec.required_fields, Templates.field_missing p f = false) := by
  refine ⟨?_, ?_, ?_⟩
  · intro h
    simp [Templates.validate, h]
  · intro spec h
    simp [Templates.validate, h]
  · unfold Templates.validate
    cases hl : Templates.MESSAGE_TYPES.lookup mt with
    | none => simp
    | some spec =>
      simp only [List.append_eq_nil, Option.some.injEq]
      constructor
      · rintro ⟨hord, hfields⟩
        refine ⟨spec, rfl, ?_, ?_⟩
        · by_contra hlt
          rw [if_pos (lt_of_not_le hlt)] at hord
          exact List.cons_ne_nil _ _ hord
        · intro f hf
          have hnone := List.filterMap_eq_nil.mp hfields f hf
          by_contra hm
          rw [if_pos (by simpa using hm)] at hnone
          exact Option.noConfusion hnone
      · rintro ⟨spec2, hspec2, hle, hfields⟩
        cases hspec2
        refine ⟨?_, ?_⟩
        · rw [if_neg (not_lt.mpr hle)]
        · exact List.filterMap_eq_nil.mpr (fun f hf => by rw [if_neg (by simp [hfields f hf])])

/-- C7 witness: an unregistered type gives the single unknown-type error. -/
theorem validate_error_characterisation_witness :
    Templates.validate "bogus_type" "system" []
      = ["Unknown message type: " ++ "bogus_type"] :=
  (validate_error_characterisation "bogus_type" "system" []).1 rfl

/-! Claim C9. -/

/-- C9 counterexample: with `wasEncrypted = true`, `render` of a
registered type that has an HTML variant still returns a rich body — the
rich body is produced and returned, not suppressed by the renderer. -/
theorem render_encrypted_keeps_rich_body_cex :
    (Templates.render flStub "verify_email"
        [("verification_url", some "https://x.example/v"), ("expires_in", some "24 hours")]
        true).map (fun r => r.2.2.isSome) = some true := by
  rfl

/-- C9 (amended): for every registered message type and payload on which
the renderer succeeds, `render` with `wasEncrypted = true` prepends the
fixed encryption notice to the plaintext body only, leaving the subject
and the rich body exactly as produced for `wasEncrypted = false` — in
particular the rich body is not suppressed by the renderer (it is
discarded later, at the transport handoff). -/
theorem render_encrypted_prepends_notice (fl : Templates.FloatFn) (mt : String)
    (p : Payload) (s b : String) (h : Option String)
    (hr : Templates.render fl mt p false = some (s, b, h)) :
    Templates.render fl mt p true
      = some (s, "\n[This message is encrypted end-to-end]\n" ++ b, h) := by
  unfold Templates.render at hr ⊢
  cases hrend : Templates.renderers fl mt p with
  | none =>
    rw [hrend] at hr
    exact Option.noConfusion hr
  | some out =>
    obtain ⟨s2, b2, h2⟩ := out
    rw [hrend] at hr
    simp only [if_pos, if_neg, Bool.false_eq_true, if_false, if_true,
      str_empty_append, Option.some.injEq, Prod.mk.injEq] at hr
    obtain ⟨rfl, rfl, rfl⟩ := hr
    simp [str_empty_append]

/-- C9 witness: a concrete render of a game invite with encryption
intended. -/
theorem render_encrypted_prepends_notice_witness :
    Templates.render flStub "game_invite" reqAuthDenied.payload true
      = some ("Ann invited you to a game",
        "\n[This message is encrypted end-to-end]\n" ++
          "Ann has invited you to join their table: T1\n\nJoin here: https://x.example/j",
        none) :=
  render_encrypted_prepends_notice flStub "game_invite" reqAuthDenied.payload
    "Ann invited you to a game"
    "Ann has invited you to join their table: T1\n\nJoin here: https://x.example/j"
    none (by rfl)

/-! Claim C1. -/

/-- C1: every well-formed send request whose message type is in the
honeypot set is denied by the authorization gate with the security-alert
flag set on the single authorization result, and the pipeline rejects it
with code `auth_denied` — regardless of the caller and tier, i.e. of
whether the stub authority's policy evaluation would have authorized it. -/
theorem honeypot_always_rejected (env : Pipeline.Env) (req : Pipeline.SendRequest)
    (hhp : Auth.HONEYPOT_MESSAGE_TYPES.contains req.message_type = true)
    (h1 : req.calling_service ≠ "") (h2 : req.request_id ≠ "")
    (h3 : (Auth.TIER_LEVELS.lookup req.tier).isSome = true)
    (h4 : req.recipient_type = "email" ∨ req.recipient_type = "user_id")
    (h5 : req.recipient_value ≠ "") :
    (Auth.check (Pipeline.auth_request_of req)).authorized = false
    ∧ (Auth.check (Pipeline.auth_request_of req)).security_alert = true
    ∧ Pipeline.processAux env req
        = some (Pipeline._reject "auth_denied" "Message type not available" none, none) := by
  have hchk : Auth.check (Pipeline.auth_request_of req)
      = { authorized := false
          enforced_tier := none
          reason := some "Message type not available"
          security_alert := true
          alert_detail := some ("Honeypot triggered by " ++ req.calling_service) } := by
    simp only [Auth.check, Pipeline.auth_request_of, hhp]
    rfl
  refine ⟨by rw [hchk], by rw [hchk], ?_⟩
  obtain ⟨v, hv⟩ := Option.isSome_iff_exists.mp h3
  rcases h4 with h4 | h4 <;>
    simp [Pipeline.processAux, h1, h2, h5, hv, h4, hchk, py_or_str, Pipeline._reject]

/-- C1 witness: a honeypot request from a caller the policy would have
authorized. -/
theorem honeypot_always_rejected_witness :
    (Auth.check (Pipeline.auth_request_of reqHoneypot)).authorized = false
    ∧ (Auth.check (Pipeline.auth_request_of reqHoneypot)).security_alert = true
    ∧ Pipeline.processAux envStub reqHoneypot
        = some (Pipeline._reject "auth_denied" "Message type not available" none, none) :=
  honeypot_always_rejected envStub reqHoneypot rfl (by decide) (by decide) rfl
    (Or.inl rfl) (by decide)

/-! Claim C3. -/

/-- C3 counterexample: a restricted-tier request whose recipient is an
address literal that differs from the account's registered address is
rejected with `invalid_recipient` at the tier/recipient-compatibility
step — not with `restricted_address_mismatch` as the claim states. -/
theorem restricted_literal_rejected_cex :
    Pipeline.process envStub reqRestrictedLiteral
      = some (Pipeline._reject "invalid_recipient"
          "restricted tier requires registered user_id recipient, not raw email"
          (some "restricted"))
    ∧ (Pipeline.process envStub reqRestrictedLiteral).map Pipeline.SendResult.error_code
      ≠ some (some "restricted_address_mismatch")
    ∧ Encryption.resolve_recipient_address envStub.dir_registered
        reqRestrictedLiteral.recipient_value (some "restricted")
      ≠ some reqRestrictedLiteral.recipient_value :=
  ⟨rfl, by decide, by decide⟩

/-- C3 (amended): every well-formed restricted-tier request from an
authorized caller whose recipient is an address literal is rejected with
`invalid_recipient` before any resolution, whether or not the literal
matches the registered address; `restricted_address_mismatch` is not the
code this path produces. -/
theorem restricted_literal_invalid_recipient (env : Pipeline.Env)
    (req : Pipeline.SendRequest)
    (h1 : req.calling_service ≠ "") (h2 : req.request_id ≠ "")
    (h3 : req.tier = "restricted") (h4 : req.recipient_type = "email")
    (h5 : req.recipient_value ≠ "")
    (h6 : Auth.HONEYPOT_MESSAGE_TYPES.contains req.message_type = false)
    (h7 : ((Auth.CALLER_TIER_POLICY.lookup req.calling_service).getD []).contains
        "restricted" = true) :
    Pipeline.processAux env req
      = some (Pipeline._reject "invalid_recipient"
          "restricted tier requires registered user_id recipient, not raw email"
          (some "restricted"), none) := by
  have hchk : Auth.check (Pipeline.auth_request_of req)
      = { authorized := true, enforced_tier := some "restricted" } := by
    simp only [Auth.check, Auth._call_opa, Pipeline.auth_request_of, h3, h4, h6, h7]
    rfl
  simp [Pipeline.processAux, h1, h2, h3, h4, h5, hchk, Pipeline.opt_mem,
    Pipeline.REQUIRES_USER_ID, pyStr, Pipeline._reject, Auth.TIER_LEVELS]

/-- C3 witness: the concrete mismatching-literal request of the
counterexample, via the amended theorem. -/
theorem restricted_literal_invalid_recipient_witness :
    Pipeline.processAux envStub reqRestrictedLiteral
      = some (Pipeline._reject "invalid_recipient"
          "restricted tier requires registered user_id recipient, not raw email"
          (some "restricted"), none) :=
  restricted_literal_invalid_recipient envStub reqRestrictedLiteral
    (by decide) (by decide) rfl rfl (by decide) rfl rfl

/-! Claim C5. -/

/-- C5 counterexample: a request that passes step-1 schema validation but
is rejected at the authorization step comes back with no message id at
all — the minted id is not carried by rejected results. -/
theorem minted_id_dropped_on_reject_cex :
    (reqAuthDenied.calling_service ≠ "" ∧ reqAuthDenied.request_id ≠ ""
      ∧ (Auth.TIER_LEVELS.lookup reqAuthDenied.tier).isSome = true
      ∧ reqAuthDenied.recipient_type = "email"
      ∧ reqAuthDenied.recipient_value ≠ "")
    ∧ (Pipeline.process envStub reqAuthDenied).map Pipeline.SendResult.status
      = some "rejected"
    ∧ (Pipeline.process envStub reqAuthDenied).map Pipeline.SendResult.message_id
      = some none :=
  ⟨⟨by decide, by decide, rfl, rfl, by decide⟩, rfl, rfl⟩

/-- C5 (amended): the minted message id appears in the returned
`SendResult` exactly for the `queued` and `error` outcomes; every
`rejected` result — at whatever stage, even after step-1 schema
validation passed — carries `message_id = none` (the minted id is used
for logging only). -/
theorem message_id_only_on_non_rejected (env : Pipeline.Env)
    (req : Pipeline.SendRequest) :
    ∀ res m, Pipeline.processAux env req = some (res, m) →
      res.message_id = (if res.status = "rejected" then none else some env.message_id) := by
  intro res m hpa
  rcases processAux_shape env req res m hpa with
    ⟨hst, hid, -, -⟩ | ⟨hst, hid, -⟩
  · rw [hid, if_pos hst]
  · rcases hst with hst | hst <;> rw [hid, if_neg (by rw [hst]; decide)]

/-- C5 witness: the auth-denied rejection of the counterexample carries
no message id. -/
theorem message_id_only_on_non_rejected_witness :
    (Pipeline._reject "auth_denied"
        "Service \x27chat-service\x27 not permitted to send \x27personal\x27 tier"
        none).message_id
      = (if (Pipeline._reject "auth_denied"
            "Service \x27chat-service\x27 not permitted to send \x27personal\x27 tier"
            none).status = "rejected" then none else some envStub.message_id) :=
  message_id_only_on_non_rejected envStub reqAuthDenied
    (Pipeline._reject "auth_denied"
      "Service \x27chat-service\x27 not permitted to send \x27personal\x27 tier" none)
    none (by rfl)

/-! Claim C4. -/

/-- C4: whenever the final result reports `encrypted = true`, the
`TransportMessage` handed to the delivery collaborator carries no rich
(HTML) body. -/
theorem encrypted_result_no_rich_body (env : Pipeline.Env) (req : Pipeline.SendRequest)
    (h : (Pipeline.processAux env req).map (fun p => p.1.encrypted) = some (some true)) :
    (Pipeline.processAux env req).map
        (fun p => p.2.map Transport.TransportMessage.body_html) = some (some none) := by
  cases hpa : Pipeline.processAux env req with
  | none =>
    rw [hpa] at h
    exact Option.noConfusion h
  | some pr =>
    obtain ⟨res, m⟩ := pr
    rw [hpa] at h
    have h2 : res.encrypted = some true := Option.some.inj h
    rcases processAux_shape env req res m hpa with
      ⟨-, -, henc, -⟩ | ⟨-, -, msg, hm, henc, hbh⟩
    · rw [henc] at h2
      exact Option.noConfusion h2
    · rw [henc] at h2
      have h3 : msg.encrypted = true := Option.some.inj h2
      simp [hm, hbh h3]

/-- C4 witness: a personal-tier request that gets encrypted; the handed
envelope has no rich body even though its renderer produced one. -/
theorem encrypted_result_no_rich_body_witness :
    (Pipeline.processAux envStub reqPersonalEncrypted).map
        (fun p => p.2.map Transport.TransportMessage.body_html) = some (some none) :=
  encrypted_result_no_rich_body envStub reqPersonalEncrypted (by rfl)

/-! Claim C10. -/

/-- Steps 4–9 never reject with `restricted_address_mismatch` when the
two directory calls are the same function and restricted-tier requests
were already confined to identity-reference recipients. -/
theorem resolve_onward_no_mismatch (env : Pipeline.Env) (req : Pipeline.SendRequest)
    (t : Option String) (hdet : env.dir_resolve = env.dir_registered)
    (hcompat : t = some "restricted" → req.recipient_type = "user_id") :
    ∀ res m, Pipeline.process_resolve_onward env req t = some (res, m) →
      res.error_code ≠ some "restricted_address_mismatch" := by
  intro res m hpa hcode
  simp only [Pipeline.process_resolve_onward] at hpa
  split at hpa
  · rename_i r heq
    simp only [Option.some.injEq, Prod.mk.injEq] at hpa
    obtain ⟨rfl, rfl⟩ := hpa
    repeat' split at heq
    all_goals
      first
      | exact Except.noConfusion heq
      | (injection heq with heq2
         subst heq2
         simp [Pipeline._reject] at hcode)
  · rename_i resolved uid heq4
    split at hpa
    · rename_i r heq
      simp only [Option.some.injEq, Prod.mk.injEq] at hpa
      obtain ⟨rfl, rfl⟩ := hpa
      split at heq
      · rename_i hrt
        split at heq
        · injection heq with heq2
          subst heq2
          simp [Pipeline._reject] at hcode
        · rename_i registered heqB
          split at heq
          · rename_i hne
            have hu : req.recipient_type = "user_id" := hcompat hrt
            rw [if_pos hu] at heq4
            split at heq4
            · exact Except.noConfusion heq4
            · rename_i addr heqA
              injection heq4 with heq5
              injection heq5 with h5a h5b
              subst h5a
              rw [hdet] at heqA
              simp only [Encryption.resolve_recipient_address] at heqA heqB
              rw [heqA] at heqB
              exact hne (Option.some.inj heqB)
          · exact Except.noConfusion heq
      · exact Except.noConfusion heq
    · exact (validate_onward_shape env req t _ _ res m hpa).elim
        (fun h => h.2.2.2.2 hcode)
        (fun h => by rcases h.2.2.1 with hc | hc <;> simp [hc] at hcode)

/-- C10: assuming the identity directory is a deterministic function of
the user id (both resolution calls are the same function), `process`
never returns error code `restricted_address_mismatch`: address-literal
recipients at restricted tier are rejected earlier as
`invalid_recipient`, and for identity-reference recipients both
resolutions use the same user id and must agree. -/
theorem no_restricted_address_mismatch (env : Pipeline.Env) (req : Pipeline.SendRequest)
    (hdet : env.dir_resolve = env.dir_registered) :
    (Pipeline.processAux env req).map (fun p => p.1.error_code)
      ≠ some (some "restricted_address_mismatch") := by
  intro hcontra
  obtain ⟨pr, hpa, hcode0⟩ := Option.map_eq_some'.mp hcontra
  obtain ⟨res, m⟩ := pr
  have hcode : res.error_code = some "restricted_address_mismatch" := hcode0
  simp only [Pipeline.processAux] at hpa
  repeat' split at hpa
  all_goals
    first
    | (simp only [Option.some.injEq, Prod.mk.injEq] at hpa
       obtain ⟨rfl, rfl⟩ := hpa
       simp [Pipeline._reject] at hcode
       done)
    | (rename_i hcompat3
       refine resolve_onward_no_mismatch env req _ hdet ?_ res m hpa hcode
       intro hrt
       simp [hrt, Pipeline.opt_mem, Pipeline.REQUIRES_USER_ID, not_and, not_not] at hcompat3
       exact hcompat3)

/-- C10 witness: a restricted-tier identity-reference request against a
deterministic directory. -/
theorem no_restricted_address_mismatch_witness :
    (Pipeline.processAux envStub reqRestrictedUser).map (fun p => p.1.error_code)
      ≠ some (some "restricted_address_mismatch") :=
  no_restricted_address_mismatch envStub reqRestrictedUser rfl
